import Mathlib

/-!
A verification development for the cypher-guard query validator.

The core (lexer, parser, clause-order validator, semantic validator and
schema model) is specified in `spec.md` and exercised by the Python test
suites under `src/rust/python_bindings/tests` and `src/tests`.  The Rust
implementation itself is not part of the source tree, so the definitions
below are modelled from the specification; wherever the repository's own
unit tests pin down concrete observable behaviour (which error kind a
given query raises, which queries are accepted), the tests are followed,
since they are the only executable record of the implementation.
-/

namespace CypherGuard

/-! ## Parse error taxonomy (spec §7)

Every parse error kind listed in the spec's closed taxonomy.  All of them
are subtypes of `CypherParsingError` in the host-language binding. -/

inductive ParseErrorKind where
  | NomParsingError
  | UnexpectedEndOfInput
  | ExpectedToken
  | InvalidSyntax
  | ParsingUndefinedVariable
  | MissingRequiredClause
  | InvalidClauseOrder
  | WhereBeforeMatch
  | ReturnAfterReturn
  | OrderByBeforeReturn
  | SkipBeforeReturn
  | LimitBeforeReturn
  | ReturnBeforeOtherClauses
  | MatchAfterReturn
  | CreateAfterReturn
  | MergeAfterReturn
  | DeleteAfterReturn
  | SetAfterReturn
  | WhereAfterReturn
  | WithAfterReturn
  | UnwindAfterReturn
  | InvalidPattern
  | InvalidWhereCondition
  | InvalidExpression
  deriving DecidableEq, Repr

/-- Modelled from the spec: "All share a common supertype `CypherParsingError`"
(spec §7).  Every kind in the closed parse-error taxonomy is a
`CypherParsingError` subtype. -/
def isCypherParsingError : ParseErrorKind → Bool := fun _ => true

/-! ## Top-level clause kinds (spec §4.2)

The clause-order validator "consumes the clause sequence emitted by the
parser"; its input is the sequence of top-level clause kinds. -/

inductive ClauseKind where
  | matchC
  | optionalMatchC
  | createC
  | mergeC
  | withC
  | unwindC
  | whereC
  | setC
  | deleteC
  | returnC
  | orderByC
  | skipC
  | limitC
  deriving DecidableEq, Repr

/-- Read clauses in the sense of spec §4.2: "A query beginning with `RETURN`
followed by any other read clause is `ReturnBeforeOtherClauses`". -/
def ClauseKind.isRead : ClauseKind → Bool
  | .matchC => true
  | .optionalMatchC => true
  | .withC => true
  | .unwindC => true
  | _ => false

/-- Write clauses per spec §6.2: "write = `CREATE | MERGE | SET | DELETE`". -/
def ClauseKind.isWrite : ClauseKind → Bool
  | .createC => true
  | .mergeC => true
  | .setC => true
  | .deleteC => true
  | _ => false

/-- State carried by the clause-order validator while it scans the clause
sequence left to right. -/
structure COState where
  seenMatch : Bool
  seenWith : Bool
  seenReturn : Bool
  returnFirst : Bool
  first : Bool
  deriving DecidableEq, Repr

def COState.init : COState :=
  { seenMatch := false, seenWith := false, seenReturn := false
    returnFirst := false, first := true }

/-- Modelled from the spec: the clause-order validator of spec §4.2 (the Rust
implementation is not in the source tree).  One step per top-level clause.
Where the spec's prose and the repository's unit tests disagree, the tests
(`tests/unit/test_parser_errors.py`) are followed:

* `MATCH` / `WITH` / `UNWIND` after a `RETURN` raise their specific
  `<Kind>AfterReturn` variants (tests `TestSpecificParserErrors`);
* `DELETE` / `SET` after a `RETURN`, a second `RETURN`, and a stand-alone
  `ORDER BY`/`SKIP`/`LIMIT` before any `RETURN`/`WITH` raise the generic
  `NomParsingError` (tests `TestNomParsingErrors`, `TestErrorTypeSummary`);
* `CREATE` / `MERGE` after a `RETURN` are accepted (tests `TestValidQueries`);
* a query beginning with `RETURN` followed by another read clause raises
  `ReturnBeforeOtherClauses`; a top-level `WHERE` before any `MATCH` raises
  `WhereBeforeMatch`; a `WHERE` after `RETURN` raises `InvalidClauseOrder`. -/
def coStep (st : COState) (c : ClauseKind) : Except ParseErrorKind COState :=
  if st.seenReturn then
    match c with
    | .returnC => .error .NomParsingError
    | .matchC | .optionalMatchC =>
        if st.returnFirst then .error .ReturnBeforeOtherClauses
        else .error .MatchAfterReturn
    | .withC =>
        if st.returnFirst then .error .ReturnBeforeOtherClauses
        else .error .WithAfterReturn
    | .unwindC =>
        if st.returnFirst then .error .ReturnBeforeOtherClauses
        else .error .UnwindAfterReturn
    | .whereC => .error .InvalidClauseOrder
    | .deleteC => .error .NomParsingError
    | .setC => .error .NomParsingError
    | .createC | .mergeC => .ok { st with first := false }
    | .orderByC | .skipC | .limitC => .ok { st with first := false }
  else
    match c with
    | .returnC =>
        .ok { st with seenReturn := true, returnFirst := st.first, first := false }
    | .whereC =>
        if st.seenMatch then .ok { st with first := false }
        else .error .WhereBeforeMatch
    | .orderByC | .skipC | .limitC =>
        if st.seenWith then .ok { st with first := false }
        else .error .NomParsingError
    | .matchC | .optionalMatchC => .ok { st with seenMatch := true, first := false }
    | .withC => .ok { st with seenWith := true, first := false }
    | _ => .ok { st with first := false }

/-- Run the clause-order validator over a clause sequence, stopping at the
first error (parsing is non-recovering, spec §4.2). -/
def runCO (st : COState) : List ClauseKind → Except ParseErrorKind COState
  | [] => .ok st
  | c :: cs => match coStep st c with
      | .error e => .error e
      | .ok st' => runCO st' cs

/-- Modelled from the spec: the clause-order check performed while the parser
assembles the clause list (spec §4.2); an empty query is a parse error
(`tests/unit/test_parser_errors.py::TestErrorEdgeCases::test_empty_query`). -/
def checkClauseOrder (cs : List ClauseKind) : Except ParseErrorKind Unit :=
  match cs with
  | [] => .error .UnexpectedEndOfInput
  | _ => match runCO COState.init cs with
      | .error e => .error e
      | .ok _ => .ok ()

/-- The parser front-end, abstracted: a query either fails to tokenize/parse
(`.error e`) or yields a top-level clause sequence.  `checkSyntax` then runs
the clause-order validator over that sequence (spec §6.2, §4.2). -/
abbrev ParseResult := Except ParseErrorKind (List ClauseKind)

/-- Modelled from the spec: the syntax-checking entry point of spec §6.2
(returns `true`, raising a `ParseError` subtype on failure). -/
def checkSyntax (p : ParseResult) : Except ParseErrorKind Bool :=
  match p with
  | .error e => .error e
  | .ok cs => match checkClauseOrder cs with
      | .error e => .error e
      | .ok _ => .ok true

/-- Modelled from the spec: `has_parser_errors(query) → bool` (never raises)
(spec §6.2). -/
def has_parser_errors (p : ParseResult) : Bool :=
  match checkSyntax p with
  | .error _ => true
  | .ok _ => false

/-- Modelled from the spec: `is_write(query)` classifies by which clauses the
parsed query contains (write = `CREATE | MERGE | SET | DELETE`); on a
syntactically invalid query it raises the same `ParseError` subtype as
`checkSyntax` (spec §6.2, `tests/unit/test_parser_errors.py::TestErrorConsistency`). -/
def is_write (p : ParseResult) : Except ParseErrorKind Bool :=
  match p with
  | .error e => .error e
  | .ok cs => match checkClauseOrder cs with
      | .error e => .error e
      | .ok _ => .ok (cs.any ClauseKind.isWrite)

/-- Modelled from the spec: `is_read(query)`, dually to `is_write`
(spec §6.2). -/
def is_read (p : ParseResult) : Except ParseErrorKind Bool :=
  match p with
  | .error e => .error e
  | .ok cs => match checkClauseOrder cs with
      | .error e => .error e
      | .ok _ => .ok (cs.any fun c => !c.isWrite)


/-! ## Schema model for validation (spec §3)

Labels map to ordered property lists, rel types likewise, and
`relationships` is the set of permitted directed triples. -/

abbrev Label := String
abbrev RelType := String

inductive NeoType where
  | STRING | INTEGER | FLOAT | BOOLEAN | POINT | DATE_TIME | LIST
  deriving DecidableEq, Repr

structure Property where
  name : String
  neo4j_type : NeoType
  deriving DecidableEq, Repr

/-- A permitted `(start_label, rel_type, end_label)` triple (spec §3);
`endL` stands for the source's `end` field, a reserved word here. -/
structure RelationshipPattern where
  start : Label
  endL : Label
  rel_type : RelType
  deriving DecidableEq, Repr

structure Schema where
  node_props : List (Label × List Property)
  rel_props : List (RelType × List Property)
  relationships : List RelationshipPattern
  deriving DecidableEq, Repr

def Schema.allLabels (s : Schema) : List Label := s.node_props.map (·.1)

def Schema.knownLabel (s : Schema) (l : Label) : Bool := s.allLabels.contains l

/-- Known rel types: those with declared properties plus those mentioned by a
permitted triple (spec §3 invariants: triples may reference types with no
properties; such types are known with empty property sets). -/
def Schema.allRelTypes (s : Schema) : List RelType :=
  s.rel_props.map (·.1) ++ s.relationships.map (·.rel_type)

def Schema.knownRelType (s : Schema) (t : RelType) : Bool := s.allRelTypes.contains t

def Schema.nodeHasProp (s : Schema) (l : Label) (k : String) : Bool :=
  match s.node_props.lookup l with
  | some ps => ps.any (fun p => p.name == k)
  | none => false

def Schema.relHasProp (s : Schema) (t : RelType) (k : String) : Bool :=
  match s.rel_props.lookup t with
  | some ps => ps.any (fun p => p.name == k)
  | none => false

/-- Declared type of property `k` on the first label in `labels` that has it. -/
def Schema.nodePropType (s : Schema) (labels : List Label) (k : String) : Option NeoType :=
  (labels.filterMap fun l =>
    (s.node_props.lookup l).bind fun ps =>
      (ps.find? (fun p => p.name == k)).map (·.neo4j_type)).head?

def Schema.relPropType (s : Schema) (types : List RelType) (k : String) : Option NeoType :=
  (types.filterMap fun t =>
    (s.rel_props.lookup t).bind fun ps =>
      (ps.find? (fun p => p.name == k)).map (·.neo4j_type)).head?

/-! ## Validation error taxonomy (spec §7) -/

inductive ValidationError where
  | invalidNodeLabel (label : String)
  | invalidRelationshipType (rel_type : String)
  | invalidPropertyAccess (varName : String) (key : String)
  | invalidPropertyType (varName : String) (key : String)
  | invalidRelationshipDirection (varName : String)
  | undefinedVariable (varName : String)
  deriving DecidableEq, Repr

/-! ## AST fragment exercised by the validator (spec §3) -/

inductive BinOp where
  | eq | neq | lt | gt | le | ge | andB | orB
  deriving DecidableEq, Repr

def BinOp.isComparison : BinOp → Bool
  | .eq | .neq | .lt | .gt | .le | .ge => true
  | _ => false

inductive Expr where
  | litString (s : String)
  | litInt (n : Int)
  | litFloat (s : String)
  | litBool (b : Bool)
  | litNull
  | var (name : String)
  | prop (v : String) (key : String)
  | param (name : String)
  | fn (name : String) (arg : Expr)
  | binary (op : BinOp) (lhs rhs : Expr)
  | isNull (e : Expr) (negated : Bool)
  deriving DecidableEq, Repr

/-- Modelled from the spec: literal type inference (spec §4.4).  `none` means
the expression's type is unchecked (`null`, parameters, and anything that is
not a literal or a `datetime(...)`/`point(...)` wrapper). -/
def typeofLit : Expr → Option NeoType
  | .litString _ => some .STRING
  | .litInt _ => some .INTEGER
  | .litFloat _ => some .FLOAT
  | .litBool _ => some .BOOLEAN
  | .fn f _ => if f == "datetime" then some .DATE_TIME
               else if f == "point" then some .POINT
               else none
  | _ => none

/-- Modelled from the spec: type compatibility for `prop op lit` (spec §4.4):
equal types accepted, INTEGER compatible with FLOAT; `datetime(...)` /
`point(...)` wrappers carry DATE_TIME / POINT and so match via equality;
`null` and parameters never reach this check (`typeofLit` is `none`). -/
def compatibleB (T S : NeoType) : Bool :=
  T == S || (T == .FLOAT && S == .INTEGER) || (T == .INTEGER && S == .FLOAT)

/-! ## Scope (spec §3, validator-internal) -/

inductive BindKind where
  | node | rel | scalar
  deriving DecidableEq, Repr

structure Binding where
  kind : BindKind
  labels : List Label
  rel_types : List RelType
  deriving DecidableEq, Repr

def Binding.scalar : Binding := { kind := .scalar, labels := [], rel_types := [] }

abbrev Scope := List (String × Binding)

def Scope.upsert (sc : Scope) (v : String) (b : Binding) : Scope :=
  if sc.any (fun p => p.1 == v) then
    sc.map (fun p => if p.1 == v then (v, b) else p)
  else sc ++ [(v, b)]

/-- Declared type of `v.k` under the current scope: a node binding consults
`node_props` over its label set, a rel binding consults `rel_props` (spec §4.3
step 2). -/
def propDeclType (s : Schema) (sc : Scope) (v k : String) : Option NeoType :=
  match sc.lookup v with
  | some b =>
      match b.kind with
      | .node => s.nodePropType b.labels k
      | .rel => s.relPropType b.rel_types k
      | .scalar => none
  | none => none

/-- Modelled from the spec: the literal-type compatibility check performed on
a comparison `v.k op rhs` (spec §4.4).  No error when the property's declared
type is unknown or the right-hand side's type is unchecked. -/
def comparisonTypeErrs (s : Schema) (sc : Scope) (v k : String) (rhs : Expr) :
    List ValidationError :=
  match propDeclType s sc v k with
  | some T =>
      match typeofLit rhs with
      | some S => if compatibleB T S then [] else [ValidationError.invalidPropertyType v k]
      | none => []
  | none => []

/-- Modelled from the spec: expression validation (spec §4.3 step 2): resolve
variables against the scope (`UndefinedVariable` when absent), check every
property access against the binding's label / rel-type set
(`InvalidPropertyAccess` when no member has the property), and check literal
types on comparisons `prop op lit` (spec §4.4). -/
def checkExpr (s : Schema) (sc : Scope) : Expr → List ValidationError
  | .litString _ | .litInt _ | .litFloat _ | .litBool _ | .litNull | .param _ => []
  | .var v => if (sc.lookup v).isSome then [] else [ValidationError.undefinedVariable v]
  | .prop v k =>
      match sc.lookup v with
      | none => [ValidationError.undefinedVariable v]
      | some b =>
          match b.kind with
          | .node =>
              if b.labels.any (fun l => s.nodeHasProp l k) then []
              else [ValidationError.invalidPropertyAccess v k]
          | .rel =>
              if b.rel_types.any (fun t => s.relHasProp t k) then []
              else [ValidationError.invalidPropertyAccess v k]
          | .scalar => []
  | .fn _ arg => checkExpr s sc arg
  | .binary op l r =>
      let base := checkExpr s sc l ++ checkExpr s sc r
      if op.isComparison then
        match l with
        | .prop v k => base ++ comparisonTypeErrs s sc v k r
        | _ => base
      else base
  | .isNull e _ => checkExpr s sc e

/-! ## Patterns (spec §3, §4.3 step 1) -/

structure NodePattern where
  var : Option String
  labels : List Label
  props : List (String × Expr)
  deriving Repr

inductive Direction where
  | right | left | undirected
  deriving DecidableEq, Repr

structure RelPattern where
  var : Option String
  rel_types : List RelType
  direction : Direction
  props : List (String × Expr)
  deriving Repr

/-- An alternating node-rel-node path: a first node followed by
(relationship, node) hops. -/
structure PathPattern where
  first : NodePattern
  rest : List (RelPattern × NodePattern)
  deriving Repr

/-- Effective label set of a node pattern: its declared labels; with none
declared, the labels of an existing binding for its variable (bindings are
preserved, spec §3), else all known labels (spec §4.3 step 1a). -/
def effLabels (s : Schema) (sc : Scope) (np : NodePattern) : List Label :=
  if np.labels.isEmpty then
    match np.var.bind (fun v => sc.lookup v) with
    | some b => if b.kind == .node then b.labels else s.allLabels
    | none => s.allLabels
  else np.labels

/-- Modelled from the spec: node-pattern validation (spec §4.3 step 1a, 1c):
every declared label must be known (`InvalidNodeLabel`), the variable is bound
to the declared labels (all known labels when none are declared, the existing
binding when the variable is already bound and no labels are declared), and
property-map keys must exist on the label set. -/
def checkNodePattern (s : Schema) (sc : Scope) (np : NodePattern) :
    Scope × List ValidationError :=
  let labelErrs := (np.labels.filter (fun l => !(s.knownLabel l))).map ValidationError.invalidNodeLabel
  let labels := effLabels s sc np
  let sc' := match np.var with
    | some v =>
        if np.labels.isEmpty && (sc.lookup v).isSome then sc
        else sc.upsert v { kind := .node, labels := labels, rel_types := [] }
    | none => sc
  let propErrs := np.props.flatMap fun p =>
    (if labels.any (fun l => s.nodeHasProp l p.1) then []
     else [ValidationError.invalidPropertyAccess (np.var.getD "") p.1]) ++
    checkExpr s sc p.2
  (sc', labelErrs ++ propErrs)

/-- Permitted triples for a relationship pattern between nodes with the given
label sets: triples whose rel type is declared (any known type when none is
declared) and whose orientation agrees with the pattern's direction — roles
swap for `←`, either orientation for undirected (spec §4.3 step 1b). -/
def permittedTriples (s : Schema) (leftLabels rightLabels : List Label)
    (types : List RelType) (dir : Direction) : List RelationshipPattern :=
  let ts := if types.isEmpty then s.allRelTypes else types
  s.relationships.filter fun t =>
    ts.contains t.rel_type &&
    (match dir with
     | .right => leftLabels.contains t.start && rightLabels.contains t.endL
     | .left => rightLabels.contains t.start && leftLabels.contains t.endL
     | .undirected =>
         (leftLabels.contains t.start && rightLabels.contains t.endL) ||
         (rightLabels.contains t.start && leftLabels.contains t.endL))

/-- Modelled from the spec: relationship-pattern validation (spec §4.3 step
1b, 1c): unknown declared types give `InvalidRelationshipType`; with all
types known, an empty permitted-triple intersection gives
`InvalidRelationshipDirection` when some triple carries the type at all, and
`InvalidRelationshipType` when none does; the variable is bound to the
declared types (all known when none declared); property-map keys must exist
on the type set. -/
def checkRelPattern (s : Schema) (sc : Scope) (leftLabels rightLabels : List Label)
    (rp : RelPattern) : Scope × List ValidationError :=
  let ts := if rp.rel_types.isEmpty then s.allRelTypes else rp.rel_types
  let typeErrs :=
    (rp.rel_types.filter (fun t => !(s.knownRelType t))).map ValidationError.invalidRelationshipType
  let triplesOfType := s.relationships.filter (fun t => ts.contains t.rel_type)
  let dirErrs :=
    if !typeErrs.isEmpty then []
    else if triplesOfType.isEmpty then
      [ValidationError.invalidRelationshipType (ts.head?.getD "")]
    else if (permittedTriples s leftLabels rightLabels rp.rel_types rp.direction).isEmpty then
      [ValidationError.invalidRelationshipDirection (rp.var.getD "")]
    else []
  let sc' := match rp.var with
    | some v => sc.upsert v { kind := .rel, labels := [], rel_types := ts }
    | none => sc
  let propErrs := rp.props.flatMap fun p =>
    (if ts.any (fun t => s.relHasProp t p.1) then []
     else [ValidationError.invalidPropertyAccess (rp.var.getD "") p.1]) ++
    checkExpr s sc p.2
  (sc', typeErrs ++ dirErrs ++ propErrs)

/-- Walk the (relationship, node) hops of a path, carrying the previous
node's effective labels so each relationship is checked against its two
endpoints (spec §4.3 step 1b). -/
def checkPathTail (s : Schema) (sc : Scope) (prevLabels : List Label) :
    List (RelPattern × NodePattern) → Scope × List ValidationError
  | [] => (sc, [])
  | (rp, np) :: rest =>
      let rightLabels := effLabels s sc np
      let (sc1, rErrs) := checkRelPattern s sc prevLabels rightLabels rp
      let (sc2, nErrs) := checkNodePattern s sc1 np
      let (sc3, errs) := checkPathTail s sc2 rightLabels rest
      (sc3, rErrs ++ nErrs ++ errs)

def checkPathPattern (s : Schema) (sc : Scope) (pp : PathPattern) :
    Scope × List ValidationError :=
  let firstLabels := effLabels s sc pp.first
  let (sc1, errs1) := checkNodePattern s sc pp.first
  let (sc2, errs2) := checkPathTail s sc1 firstLabels pp.rest
  (sc2, errs1 ++ errs2)

def checkPatterns (s : Schema) (sc : Scope) (pats : List PathPattern) :
    Scope × List ValidationError :=
  pats.foldl
    (fun a pp =>
      let (sc2, e2) := checkPathPattern s a.1 pp
      (sc2, a.2 ++ e2))
    (sc, [])

/-! ## Clauses and the forward pass (spec §4.3) -/

inductive Projection where
  | star
  | bare (v : String)
  | aliased (e : Expr) (aliasName : String)
  | expr (e : Expr)
  deriving Repr

inductive Clause where
  | matchC (optional : Bool) (patterns : List PathPattern) (whereE : Option Expr)
  | createC (patterns : List PathPattern)
  | mergeC (pattern : PathPattern)
  | withC (projections : List Projection) (whereE : Option Expr)
  | unwindC (e : Expr) (aliasName : String)
  | returnC (projections : List Projection)
  deriving Repr

abbrev Query := List Clause

/-- Modelled from the spec: `WITH`/`RETURN` projection processing (spec §4.3
steps 3 and 5): a bare variable carries its binding forward (`UndefinedVariable`
when absent from the pre-WITH scope), `expr AS alias` introduces the alias
(as `Scalar`, unless the expression is a pure variable whose binding is
carried), `*` carries every current binding, and a plain expression
projection only contributes its validation errors. -/
def processProjections (s : Schema) (old : Scope) :
    List Projection → Scope × List ValidationError
  | [] => ([], [])
  | p :: ps =>
      let (scR, errsR) := processProjections s old ps
      match p with
      | .star => (old ++ scR, errsR)
      | .bare v =>
          match old.lookup v with
          | some b => ((v, b) :: scR, errsR)
          | none => (scR, ValidationError.undefinedVariable v :: errsR)
      | .aliased e a =>
          let b := match e with
            | .var v => (old.lookup v).getD Binding.scalar
            | _ => Binding.scalar
          ((a, b) :: scR, checkExpr s old e ++ errsR)
      | .expr e => (scR, checkExpr s old e ++ errsR)

/-- Modelled from the spec: one clause of the single forward pass (spec §4.3).
`MATCH`/`CREATE`/`MERGE` bind pattern variables and check the attached
`WHERE`; `WITH` replaces the scope with the projected one; `UNWIND … AS x`
introduces `x` as `Scalar`; `RETURN` validates its projections but produces
no new scope. -/
def processClause (s : Schema) (sc : Scope) : Clause → Scope × List ValidationError
  | .matchC _ pats whereE =>
      let (sc', errs) := checkPatterns s sc pats
      let wErrs := match whereE with
        | some w => checkExpr s sc' w
        | none => []
      (sc', errs ++ wErrs)
  | .createC pats => checkPatterns s sc pats
  | .mergeC pat => checkPathPattern s sc pat
  | .withC projs whereE =>
      let (newSc, errs) := processProjections s sc projs
      let wErrs := match whereE with
        | some w => checkExpr s newSc w
        | none => []
      (newSc, errs ++ wErrs)
  | .unwindC e a => (sc.upsert a Binding.scalar, checkExpr s sc e)
  | .returnC projs => (sc, (processProjections s sc projs).2)

/-- Modelled from the spec: the semantic validator (spec §4.3): a single
forward pass over the clauses, maintaining a scope stack and accumulating
`ValidationError`s; it never aborts on a semantic problem. -/
def validateQuery (s : Schema) (q : Query) : List ValidationError :=
  (q.foldl
    (fun a c =>
      let (sc', errs) := processClause s a.1 c
      (sc', a.2 ++ errs))
    (([] : Scope), ([] : List ValidationError))).2

/-- Modelled from the spec: the `validate(query, schema)` entry point
(spec §6.2): a parse failure propagates as the raised `ParseError` subtype;
a successful parse always yields the (possibly empty) ordered error list. -/
def validate (p : Except ParseErrorKind Query) (s : Schema) :
    Except ParseErrorKind (List ValidationError) :=
  match p with
  | .error e => .error e
  | .ok q => .ok (validateQuery s q)

/-! ## The shared test schema

The schema used by `tests/unit/test_validation.py` (also spec §8): Person,
Movie, Station, Stop with their properties; KNOWS, ACTED_IN, CALLS_AT, NEXT,
LINK with the listed permitted triples. -/

def testSchema : Schema :=
  { node_props :=
      [ ("Person", [⟨"name", .STRING⟩, ⟨"age", .INTEGER⟩, ⟨"created", .BOOLEAN⟩])
      , ("Movie", [⟨"title", .STRING⟩, ⟨"year", .INTEGER⟩])
      , ("Station", [⟨"name", .STRING⟩, ⟨"location", .POINT⟩])
      , ("Stop", [⟨"departs", .STRING⟩, ⟨"arrives", .STRING⟩]) ]
    rel_props :=
      [ ("KNOWS", [⟨"since", .DATE_TIME⟩])
      , ("ACTED_IN", [⟨"role", .STRING⟩])
      , ("CALLS_AT", [])
      , ("NEXT", [])
      , ("LINK", [⟨"distance", .FLOAT⟩]) ]
    relationships :=
      [ ⟨"Person", "Person", "KNOWS"⟩
      , ⟨"Person", "Movie", "ACTED_IN"⟩
      , ⟨"Stop", "Station", "CALLS_AT"⟩
      , ⟨"Stop", "Stop", "NEXT"⟩
      , ⟨"Station", "Station", "LINK"⟩ ] }

/-- Shorthand for a node pattern `(v:L)` (no property map). -/
def nodeP (v : String) (ls : List Label) : NodePattern :=
  { var := some v, labels := ls, props := [] }

/-- Shorthand for a relationship pattern `[v:T]` with a direction. -/
def relP (v : String) (ts : List RelType) (d : Direction) : RelPattern :=
  { var := some v, rel_types := ts, direction := d, props := [] }

/-- AST of `MATCH (a:Person)-[r:KNOWS]->(b:Person) WITH a,r,b
MATCH (b)-[r2:ACTED_IN]->(m:Movie)
WHERE r.role = 'friend' AND r2.role = 'actor' RETURN a.name`
(spec §8 scenario 10, `test_complex_multiline_with_context_aware_validation`). -/
def queryWithContext : Query :=
  [ .matchC false
      [⟨nodeP "a" ["Person"], [(relP "r" ["KNOWS"] .right, nodeP "b" ["Person"])]⟩] none
  , .withC [.bare "a", .bare "r", .bare "b"] none
  , .matchC false
      [⟨nodeP "b" [], [(relP "r2" ["ACTED_IN"] .right, nodeP "m" ["Movie"])]⟩]
      (some (.binary .andB
        (.binary .eq (.prop "r" "role") (.litString "friend"))
        (.binary .eq (.prop "r2" "role") (.litString "actor"))))
  , .returnC [.expr (.prop "a" "name")] ]

/-- AST of `MATCH (a:Person) WITH b RETURN b.name`
(`test_with_clause_invalid_variable`). -/
def queryWithUndefined : Query :=
  [ .matchC false [⟨nodeP "a" ["Person"], []⟩] none
  , .withC [.bare "b"] none
  , .returnC [.expr (.prop "b" "name")] ]

/-- AST of `MATCH (a:Person)<-[r:ACTED_IN]-(b:Movie) RETURN a.name`
(spec §8 scenario 6, `test_cypher_query_invalid_relationship_direction`). -/
def queryWrongDirection : Query :=
  [ .matchC false
      [⟨nodeP "a" ["Person"], [(relP "r" ["ACTED_IN"] .left, nodeP "b" ["Movie"])]⟩] none
  , .returnC [.expr (.prop "a" "name")] ]

/-- AST of `MATCH (a:Person) WHERE a.age = '30' RETURN a.name`
(spec §8 scenario 5, `test_cypher_query_invalid_property_type`). -/
def queryWrongLiteralType : Query :=
  [ .matchC false [⟨nodeP "a" ["Person"], []⟩]
      (some (.binary .eq (.prop "a" "age") (.litString "30")))
  , .returnC [.expr (.prop "a" "name")] ]

/-- AST of `MATCH (a:Person)-[r:KNOWS]->(b:Person) RETURN a.name, r.since`
(spec §8 scenario 1: a fully valid query). -/
def queryAllValid : Query :=
  [ .matchC false
      [⟨nodeP "a" ["Person"], [(relP "r" ["KNOWS"] .right, nodeP "b" ["Person"])]⟩] none
  , .returnC [.expr (.prop "a" "name"), .expr (.prop "r" "since")] ]

/-- AST of `MATCH (a:Person) RETURN a.invalid_prop`
(`test_invalid_node_property`: a semantic problem is reported in the
returned list, not raised). -/
def queryInvalidProp : Query :=
  [ .matchC false [⟨nodeP "a" ["Person"], []⟩] none
  , .returnC [.expr (.prop "a" "invalid_prop")] ]


/-! ## Schema dictionary construction and round-trip (spec §4.5, §6.1)

The nested dictionaries accepted by `DbSchema.from_dict` and friends are
modelled as JSON-like values; a dictionary is an ordered association list,
so insertion order is part of the value.  Numeric literals that are not
integers (e.g. `values_selectivity`) are carried verbatim. -/

inductive JValue where
  | jnull
  | jbool (b : Bool)
  | jint (n : Int)
  | jnum (s : String)
  | jstr (s : String)
  | jlist (xs : List JValue)
  | jobj (fields : List (String × JValue))
  deriving Repr

abbrev JDict := List (String × JValue)

def getStr : JValue → Option String
  | .jstr s => some s
  | _ => none

def getInt : JValue → Option Int
  | .jint n => some n
  | _ => none

/-- A numeric value (integer or not), carried verbatim. -/
def getNum : JValue → Option JValue
  | .jint n => some (.jint n)
  | .jnum s => some (.jnum s)
  | _ => none

def getStrList : JValue → Option (List String)
  | .jlist xs => xs.mapM getStr
  | _ => none

def strListJ (xs : List String) : JValue := .jlist (xs.map .jstr)

def isNullJ : JValue → Bool
  | .jnull => true
  | _ => false

/-- Read an optional dictionary field: absent or `null` mean unset;
a present non-null value must parse with `f`. -/
def optField (d : JDict) (k : String) (f : JValue → Option α) :
    Except String (Option α) :=
  match d.lookup k with
  | none => .ok none
  | some v =>
      if isNullJ v then .ok none
      else
        match f v with
        | some a => .ok (some a)
        | none => .error "invalid field type"

/-- Read a required dictionary field. -/
def reqField (d : JDict) (k : String) (f : JValue → Option α) : Except String α :=
  match d.lookup k with
  | none => .error "missing key"
  | some v =>
      match f v with
      | some a => .ok a
      | none => .error "invalid field type"

/-- Emit an optional entry: unset fields are omitted from `to_dict` output. -/
def optEntry (k : String) (v : Option JValue) : JDict :=
  match v with
  | some x => [(k, x)]
  | none => []

/-- Canonicalization of an optional field: absent and `null` both disappear,
a present value is kept verbatim. -/
def keepOpt (d : JDict) (k : String) : JDict :=
  match d.lookup k with
  | none => []
  | some v => if isNullJ v then [] else [(k, v)]

/-- Canonicalization of a required field: kept verbatim when present. -/
def keepReq (d : JDict) (k : String) : JDict :=
  match d.lookup k with
  | none => []
  | some v => [(k, v)]

/-- Canonicalization of a nullable field that `to_dict` always emits:
absent and `null` both materialize as an explicit `null`. -/
def keepNullable (d : JDict) (k : String) : JDict :=
  match d.lookup k with
  | none => [(k, .jnull)]
  | some v => if isNullJ v then [(k, .jnull)] else [(k, v)]

/-- Property type names: the closed canonical set, with the accepted alternate
spelling `DATETIME` normalized to `DATE_TIME` (spec §3, §4.5). -/
def normalizeTypeName : String → Option String
  | "STRING" => some "STRING"
  | "INTEGER" => some "INTEGER"
  | "FLOAT" => some "FLOAT"
  | "BOOLEAN" => some "BOOLEAN"
  | "POINT" => some "POINT"
  | "DATE_TIME" => some "DATE_TIME"
  | "DATETIME" => some "DATE_TIME"
  | "LIST" => some "LIST"
  | _ => none

/-- The `DbSchemaProperty` record exposed by the binding
(`tests/unit/test_schema.py`): `name` and `neo4j_type` are required, the
remaining fields optional. -/
structure DbSchemaProperty where
  name : String
  neo4j_type : String
  enum_values : Option (List String)
  min_value : Option JValue
  max_value : Option JValue
  distinct_value_count : Option Int
  example_values : Option (List String)
  deriving Repr

/-- Modelled from the spec: `DbSchemaProperty.from_dict` (spec §4.5, §6.1):
`name` and `neo4j_type` required, the type name drawn from the closed set
(unknown names are a construction error, `DATETIME` normalized), optional
fields unset when absent or `null`. -/
def DbSchemaProperty.from_dict (d : JDict) : Except String DbSchemaProperty :=
  match d.lookup "name", d.lookup "neo4j_type" with
  | some (.jstr n), some (.jstr t) =>
      match normalizeTypeName t with
      | some t' =>
          match optField d "enum_values" getStrList, optField d "min_value" getNum,
                optField d "max_value" getNum, optField d "distinct_value_count" getInt,
                optField d "example_values" getStrList with
          | .ok ev, .ok mn, .ok mx, .ok dvc, .ok exv =>
              .ok ⟨n, t', ev, mn, mx, dvc, exv⟩
          | _, _, _, _, _ => .error "invalid optional property field"
      | none => .error "invalid neo4j_type"
  | _, _ => .error "invalid property dictionary"

/-- `DbSchemaProperty.to_dict`: required keys first, set optional fields in
declaration order, unset ones omitted
(`test_DbSchemaProperty_to_dict_valid`). -/
def DbSchemaProperty.to_dict (p : DbSchemaProperty) : JDict :=
  [("name", .jstr p.name), ("neo4j_type", .jstr p.neo4j_type)] ++
  optEntry "enum_values" (p.enum_values.map strListJ) ++
  optEntry "min_value" p.min_value ++
  optEntry "max_value" p.max_value ++
  optEntry "distinct_value_count" (p.distinct_value_count.map .jint) ++
  optEntry "example_values" (p.example_values.map strListJ)

/-- The documented canonicalization of a property dictionary: type-name
normalization applied, unset optional fields omitted, known keys in
declaration order. -/
def canonicalizeProp (d : JDict) : JDict :=
  keepReq d "name" ++
  (match d.lookup "neo4j_type" with
   | some (.jstr t) => [("neo4j_type", .jstr ((normalizeTypeName t).getD t))]
   | some v => [("neo4j_type", v)]
   | none => []) ++
  keepOpt d "enum_values" ++ keepOpt d "min_value" ++ keepOpt d "max_value" ++
  keepOpt d "distinct_value_count" ++ keepOpt d "example_values"

/-- The schema triple record (`DbSchemaRelationshipPattern`); `endL` models
the source's `end` field. -/
structure DbSchemaRelationshipPattern where
  start : String
  endL : String
  rel_type : String
  deriving Repr

/-- Modelled from the spec: `DbSchemaRelationshipPattern.from_dict`
(spec §6.1): the keys `start`, `end`, `rel_type` are all required strings
(`test_DbSchemaRelationshipPattern_init_from_dict_invalid_keys`). -/
def DbSchemaRelationshipPattern.from_dict (d : JDict) :
    Except String DbSchemaRelationshipPattern :=
  match d.lookup "start", d.lookup "end", d.lookup "rel_type" with
  | some (.jstr a), some (.jstr b), some (.jstr t) => .ok ⟨a, b, t⟩
  | _, _, _ => .error "invalid relationship dictionary"

def DbSchemaRelationshipPattern.to_dict (r : DbSchemaRelationshipPattern) : JDict :=
  [("start", .jstr r.start), ("end", .jstr r.endL), ("rel_type", .jstr r.rel_type)]

def canonicalizeRel (d : JDict) : JDict :=
  keepReq d "start" ++ keepReq d "end" ++ keepReq d "rel_type"

/-- The `DbSchemaConstraint` record (spec §6.1). -/
structure DbSchemaConstraint where
  id : Int
  name : String
  constraint_type : String
  entity_type : String
  labels_or_types : List String
  properties : List String
  owned_index : Option String
  property_type : Option String
  deriving Repr

/-- Modelled from the spec: `DbSchemaConstraint.from_dict` (spec §6.1):
six required fields; `owned_index` and `property_type` are nullable and
may also be absent (`test_DbSchemaMetadata_init_from_dict_valid` omits
`property_type`). -/
def DbSchemaConstraint.from_dict (d : JDict) : Except String DbSchemaConstraint :=
  match reqField d "id" getInt, reqField d "name" getStr,
        reqField d "constraint_type" getStr, reqField d "entity_type" getStr,
        reqField d "labels_or_types" getStrList, reqField d "properties" getStrList,
        optField d "owned_index" getStr, optField d "property_type" getStr with
  | .ok i, .ok n, .ok ct, .ok et, .ok lt, .ok ps, .ok oi, .ok pt =>
      .ok ⟨i, n, ct, et, lt, ps, oi, pt⟩
  | _, _, _, _, _, _, _, _ => .error "invalid constraint dictionary"

/-- `DbSchemaConstraint.to_dict` always emits all eight keys, nullable
fields as explicit `null` (`test_DbSchemaConstraint_to_dict_valid`). -/
def DbSchemaConstraint.to_dict (c : DbSchemaConstraint) : JDict :=
  [ ("id", .jint c.id), ("name", .jstr c.name)
  , ("constraint_type", .jstr c.constraint_type)
  , ("entity_type", .jstr c.entity_type)
  , ("labels_or_types", strListJ c.labels_or_types)
  , ("properties", strListJ c.properties)
  , ("owned_index", (c.owned_index.map JValue.jstr).getD .jnull)
  , ("property_type", (c.property_type.map JValue.jstr).getD .jnull) ]

def canonicalizeConstraint (d : JDict) : JDict :=
  keepReq d "id" ++ keepReq d "name" ++ keepReq d "constraint_type" ++
  keepReq d "entity_type" ++ keepReq d "labels_or_types" ++ keepReq d "properties" ++
  keepNullable d "owned_index" ++ keepNullable d "property_type"

/-- The `DbSchemaIndex` record (spec §6.1); `values_selectivity` is a
numeric literal carried verbatim. -/
structure DbSchemaIndex where
  label : String
  properties : List String
  size : Int
  index_type : String
  values_selectivity : JValue
  distinct_values : Int
  deriving Repr

/-- Modelled from the spec: `DbSchemaIndex.from_dict` (spec §6.1): all six
fields are required. -/
def DbSchemaIndex.from_dict (d : JDict) : Except String DbSchemaIndex :=
  match reqField d "label" getStr, reqField d "properties" getStrList,
        reqField d "size" getInt, reqField d "index_type" getStr,
        reqField d "values_selectivity" getNum, reqField d "distinct_values" getInt with
  | .ok l, .ok ps, .ok sz, .ok it, .ok vs, .ok dv => .ok ⟨l, ps, sz, it, vs, dv⟩
  | _, _, _, _, _, _ => .error "invalid index dictionary"

def DbSchemaIndex.to_dict (i : DbSchemaIndex) : JDict :=
  [ ("label", .jstr i.label), ("properties", strListJ i.properties)
  , ("size", .jint i.size), ("index_type", .jstr i.index_type)
  , ("values_selectivity", i.values_selectivity)
  , ("distinct_values", .jint i.distinct_values) ]

def canonicalizeIndex (d : JDict) : JDict :=
  keepReq d "label" ++ keepReq d "properties" ++ keepReq d "size" ++
  keepReq d "index_type" ++ keepReq d "values_selectivity" ++
  keepReq d "distinct_values"

/-- The `DbSchemaMetadata` record: ordered constraint and index sequences. -/
structure DbSchemaMetadata where
  constraint : List DbSchemaConstraint
  index : List DbSchemaIndex
  deriving Repr

/-- Parse a list of constraint dictionaries. -/
def constraintsFromJ : List JValue → Except String (List DbSchemaConstraint)
  | [] => .ok []
  | .jobj f :: rest =>
      match DbSchemaConstraint.from_dict f, constraintsFromJ rest with
      | .ok c, .ok cs => .ok (c :: cs)
      | _, _ => .error "invalid constraint list"
  | _ :: _ => .error "constraint entries must be dictionaries"

/-- Parse a list of index dictionaries. -/
def indexesFromJ : List JValue → Except String (List DbSchemaIndex)
  | [] => .ok []
  | .jobj f :: rest =>
      match DbSchemaIndex.from_dict f, indexesFromJ rest with
      | .ok i, .ok is => .ok (i :: is)
      | _, _ => .error "invalid index list"
  | _ :: _ => .error "index entries must be dictionaries"

/-- Look a key up under its canonical spelling, falling back to the accepted
input alias (spec §6.1: `constraints`/`indexes` accepted for
`constraint`/`index`). -/
def lookupAlias (d : JDict) (k altKey : String) : Option JValue :=
  match d.lookup k with
  | some v => some v
  | none => d.lookup altKey

/-- Modelled from the spec: `DbSchemaMetadata.from_dict` (spec §6.1):
`constraint` and `index` lists, with the aliases `constraints`/`indexes`
accepted on input. -/
def DbSchemaMetadata.from_dict (d : JDict) : Except String DbSchemaMetadata :=
  match lookupAlias d "constraint" "constraints", lookupAlias d "index" "indexes" with
  | some (.jlist cj), some (.jlist ij) =>
      match constraintsFromJ cj, indexesFromJ ij with
      | .ok cs, .ok is => .ok ⟨cs, is⟩
      | _, _ => .error "invalid metadata"
  | _, _ => .error "invalid metadata dictionary"

def DbSchemaMetadata.to_dict (m : DbSchemaMetadata) : JDict :=
  [ ("constraint", .jlist (m.constraint.map (fun c => .jobj c.to_dict)))
  , ("index", .jlist (m.index.map (fun i => .jobj i.to_dict))) ]

/-- Canonicalize one element of a constraint list. -/
def canonConstraintJ : JValue → JValue
  | .jobj f => .jobj (canonicalizeConstraint f)
  | v => v

def canonIndexJ : JValue → JValue
  | .jobj f => .jobj (canonicalizeIndex f)
  | v => v

def canonicalizeMetadata (d : JDict) : JDict :=
  (match lookupAlias d "constraint" "constraints" with
   | some (.jlist cj) => [("constraint", .jlist (cj.map canonConstraintJ))]
   | some v => [("constraint", v)]
   | none => []) ++
  (match lookupAlias d "index" "indexes" with
   | some (.jlist ij) => [("index", .jlist (ij.map canonIndexJ))]
   | some v => [("index", v)]
   | none => [])

/-- The `DbSchema` record (spec §3, §6.1): ordered label → properties and
rel-type → properties maps, permitted triples, and metadata. -/
structure DbSchema where
  node_props : List (String × List DbSchemaProperty)
  rel_props : List (String × List DbSchemaProperty)
  relationships : List DbSchemaRelationshipPattern
  metadata : DbSchemaMetadata
  deriving Repr

/-- Parse a list of property dictionaries. -/
def propsFromJ : List JValue → Except String (List DbSchemaProperty)
  | [] => .ok []
  | .jobj f :: rest =>
      match DbSchemaProperty.from_dict f, propsFromJ rest with
      | .ok p, .ok ps => .ok (p :: ps)
      | _, _ => .error "invalid property list"
  | _ :: _ => .error "property entries must be dictionaries"

/-- Parse a label → property-list (or rel-type → property-list) map,
preserving insertion order. -/
def propMapFromJ : JDict → Except String (List (String × List DbSchemaProperty))
  | [] => .ok []
  | (l, .jlist pj) :: rest =>
      match propsFromJ pj, propMapFromJ rest with
      | .ok ps, .ok m => .ok ((l, ps) :: m)
      | _, _ => .error "invalid property map"
  | _ :: _ => .error "property map values must be lists"

/-- Parse a list of relationship-triple dictionaries. -/
def relsFromJ : List JValue → Except String (List DbSchemaRelationshipPattern)
  | [] => .ok []
  | .jobj f :: rest =>
      match DbSchemaRelationshipPattern.from_dict f, relsFromJ rest with
      | .ok r, .ok rs => .ok (r :: rs)
      | _, _ => .error "invalid relationship list"
  | _ :: _ => .error "relationship entries must be dictionaries"

/-- Modelled from the spec: `DbSchema.from_dict` (spec §4.5, §6.1): the
top-level keys `node_props`, `rel_props`, `relationships`, `metadata`. -/
def DbSchema.from_dict (d : JDict) : Except String DbSchema :=
  match d.lookup "node_props", d.lookup "rel_props",
        d.lookup "relationships", d.lookup "metadata" with
  | some (.jobj nj), some (.jobj rj), some (.jlist lj), some (.jobj mj) =>
      match propMapFromJ nj, propMapFromJ rj, relsFromJ lj,
            DbSchemaMetadata.from_dict mj with
      | .ok np, .ok rp, .ok rel, .ok md => .ok ⟨np, rp, rel, md⟩
      | _, _, _, _ => .error "invalid schema"
  | _, _, _, _ => .error "invalid schema dictionary"

def propMapToJ (m : List (String × List DbSchemaProperty)) : JDict :=
  m.map (fun e => (e.1, .jlist (e.2.map (fun p => .jobj p.to_dict))))

def DbSchema.to_dict (s : DbSchema) : JDict :=
  [ ("node_props", .jobj (propMapToJ s.node_props))
  , ("rel_props", .jobj (propMapToJ s.rel_props))
  , ("relationships", .jlist (s.relationships.map (fun r => .jobj r.to_dict)))
  , ("metadata", .jobj s.metadata.to_dict) ]

def canonPropJ : JValue → JValue
  | .jobj f => .jobj (canonicalizeProp f)
  | v => v

def canonRelJ : JValue → JValue
  | .jobj f => .jobj (canonicalizeRel f)
  | v => v

def canonPropMapJ : JDict → JDict :=
  List.map fun e =>
    match e.2 with
    | .jlist pj => (e.1, .jlist (pj.map canonPropJ))
    | v => (e.1, v)

/-- The documented canonicalization of a full schema dictionary: known keys
in declaration order, property dictionaries canonicalized element-wise with
insertion order preserved. -/
def canonicalizeSchema (d : JDict) : JDict :=
  (match d.lookup "node_props" with
   | some (.jobj nj) => [("node_props", .jobj (canonPropMapJ nj))]
   | some v => [("node_props", v)]
   | none => []) ++
  (match d.lookup "rel_props" with
   | some (.jobj rj) => [("rel_props", .jobj (canonPropMapJ rj))]
   | some v => [("rel_props", v)]
   | none => []) ++
  (match d.lookup "relationships" with
   | some (.jlist lj) => [("relationships", .jlist (lj.map canonRelJ))]
   | some v => [("relationships", v)]
   | none => []) ++
  (match d.lookup "metadata" with
   | some (.jobj mj) => [("metadata", .jobj (canonicalizeMetadata mj))]
   | some v => [("metadata", v)]
   | none => [])

/-! ## Concrete dictionaries from the schema tests -/

/-- The property dictionary of `test_DbSchemaProperty_to_dict_valid`. -/
def examplePropDict : JDict :=
  [ ("name", .jstr "name"), ("neo4j_type", .jstr "STRING")
  , ("enum_values", .jlist [.jstr "value1", .jstr "value2"]) ]

def exampleProp : DbSchemaProperty :=
  ⟨"name", "STRING", some ["value1", "value2"], none, none, none, none⟩

/-- The relationship dictionary of
`test_DbSchemaRelationshipPattern_to_dict_valid`. -/
def exampleRelDict : JDict :=
  [("start", .jstr "nodeA"), ("end", .jstr "nodeB"), ("rel_type", .jstr "relA")]

def exampleRel : DbSchemaRelationshipPattern := ⟨"nodeA", "nodeB", "relA"⟩

/-- The constraint dictionary of `test_DbSchemaConstraint_to_dict_valid`. -/
def exampleConstraintDict : JDict :=
  [ ("id", .jint 1), ("name", .jstr "CONSTRAINT_NAME")
  , ("constraint_type", .jstr "UNIQUE"), ("entity_type", .jstr "NODE")
  , ("labels_or_types", .jlist [.jstr "label1", .jstr "label2"])
  , ("properties", .jlist [.jstr "prop1", .jstr "prop2"])
  , ("owned_index", .jstr "INDEX_NAME"), ("property_type", .jnull) ]

def exampleConstraint : DbSchemaConstraint :=
  ⟨1, "CONSTRAINT_NAME", "UNIQUE", "NODE", ["label1", "label2"],
   ["prop1", "prop2"], some "INDEX_NAME", none⟩

/-- The index dictionary of `test_DbSchemaIndex_to_dict_valid`. -/
def exampleIndexDict : JDict :=
  [ ("label", .jstr "INDEX_NAME")
  , ("properties", .jlist [.jstr "prop1", .jstr "prop2"])
  , ("size", .jint 10), ("index_type", .jstr "BTREE")
  , ("values_selectivity", .jnum "0.5"), ("distinct_values", .jint 1000) ]

def exampleIndex : DbSchemaIndex :=
  ⟨"INDEX_NAME", ["prop1", "prop2"], 10, "BTREE", .jnum "0.5", 1000⟩

/-- The full schema dictionary of `test_DbSchema_to_dict_valid`. -/
def exampleSchemaDict : JDict :=
  [ ("node_props", .jobj
      [ ("nodeA", .jlist
          [ .jobj [ ("name", .jstr "name"), ("neo4j_type", .jstr "STRING")
                  , ("enum_values", .jlist [.jstr "value1", .jstr "value2"]) ]
          , .jobj [("name", .jstr "age"), ("neo4j_type", .jstr "INTEGER")] ]) ])
  , ("rel_props", .jobj
      [ ("relA", .jlist
          [.jobj [("name", .jstr "num"), ("neo4j_type", .jstr "INTEGER")]]) ])
  , ("relationships", .jlist [.jobj exampleRelDict])
  , ("metadata", .jobj
      [ ("constraint", .jlist [.jobj exampleConstraintDict])
      , ("index", .jlist [.jobj exampleIndexDict]) ]) ]

def exampleDbSchema : DbSchema :=
  ⟨ [("nodeA",
      [ exampleProp
      , ⟨"age", "INTEGER", none, none, none, none, none⟩ ])]
  , [("relA", [⟨"num", "INTEGER", none, none, none, none, none⟩])]
  , [exampleRel]
  , ⟨[exampleConstraint], [exampleIndex]⟩ ⟩

/-! # Theorems

Supporting lemmas first, then one theorem per claim. -/

/-- Running the clause-order validator over a concatenation runs the suffix
from the state the prefix reached (or stops at the prefix's error). -/
theorem runCO_append (st : COState) (xs ys : List ClauseKind) :
    runCO st (xs ++ ys) =
      match runCO st xs with
      | .error e => .error e
      | .ok st' => runCO st' ys := by
  induction xs generalizing st with
  | nil => simp [runCO]
  | cons c cs ih =>
      simp only [List.cons_append, runCO]
      cases coStep st c with
      | error e => rfl
      | ok st' => exact ih st'

/-- Every successful clause-order step clears the at-first-clause flag. -/
theorem coStep_first_false (st st' : COState) (c : ClauseKind)
    (h : coStep st c = .ok st') : st'.first = false := by
  unfold coStep at h
  split at h <;> split at h <;>
    (try split at h) <;>
    first
      | exact Except.noConfusion h
      | (injection h with h2; rw [← h2])

/-- After a nonempty clause prefix the at-first-clause flag is cleared. -/
theorem runCO_first_false (cs : List ClauseKind) (st st' : COState)
    (h : runCO st cs = .ok st') (hne : cs ≠ []) : st'.first = false := by
  induction cs generalizing st with
  | nil => exact absurd rfl hne
  | cons c cs ih =>
      simp only [runCO] at h
      cases hc : coStep st c with
      | error e => rw [hc] at h; exact Except.noConfusion h
      | ok st1 =>
          rw [hc] at h
          cases cs with
          | nil =>
              simp only [runCO] at h
              injection h with h2
              rw [← h2]
              exact coStep_first_false st st1 c hc
          | cons d ds => exact ih st1 h (by simp)

theorem checkClauseOrder_cons (c : ClauseKind) (cs : List ClauseKind) :
    checkClauseOrder (c :: cs) =
      match runCO COState.init (c :: cs) with
      | .error e => .error e
      | .ok _ => .ok () := rfl

/-- After a clean nonempty prefix and a `RETURN`, the next clause `c` is
judged by one step from the post-`RETURN` state. -/
theorem checkClauseOrder_after_return (pre rest : List ClauseKind) (st : COState)
    (c : ClauseKind) (e : ParseErrorKind)
    (h1 : runCO COState.init pre = .ok st) (h2 : st.seenReturn = false)
    (h3 : pre ≠ [])
    (hc : coStep ⟨st.seenMatch, st.seenWith, true, false, false⟩ c = .error e) :
    checkClauseOrder (pre ++ .returnC :: c :: rest) = .error e := by
  have hf : st.first = false := runCO_first_false pre COState.init st h1 h3
  have hstep : coStep st .returnC = .ok ⟨st.seenMatch, st.seenWith, true, false, false⟩ := by
    unfold coStep
    rw [if_neg (by simp [h2])]
    simp [hf]
  have hrun : runCO COState.init (pre ++ .returnC :: c :: rest) = .error e := by
    rw [runCO_append, h1]
    simp only [runCO]
    rw [hstep]
    simp only [runCO]
    rw [hc]
  cases pre with
  | nil => exact absurd rfl h3
  | cons p ps =>
      rw [List.cons_append] at hrun ⊢
      rw [checkClauseOrder_cons, hrun]

/-- C2 (corrected): contrary to the claim, `DELETE` after `RETURN` raises the
generic `NomParsingError`, not `DeleteAfterReturn`
(`test_nom_parsing_error_delete_after_return`); likewise `SET`
(`test_nom_parsing_error_set_after_return`). -/
theorem delete_after_return_is_nom_error :
    checkClauseOrder [.matchC, .returnC, .deleteC] = .error .NomParsingError ∧
    checkClauseOrder [.matchC, .returnC, .setC] = .error .NomParsingError ∧
    ParseErrorKind.NomParsingError ≠ ParseErrorKind.DeleteAfterReturn ∧
    ParseErrorKind.NomParsingError ≠ ParseErrorKind.SetAfterReturn :=
  ⟨rfl, rfl, by decide, by decide⟩

/-- C2 (amended): in every query whose clause sequence has a clean prefix
before its first `RETURN`, a `MATCH`, `WITH` or `UNWIND` clause after that
`RETURN` raises the matching specific variant (`MatchAfterReturn`,
`WithAfterReturn`, `UnwindAfterReturn`), while `DELETE` and `SET` after the
`RETURN` raise the generic `NomParsingError`. -/
theorem clause_after_return_errors (pre rest : List ClauseKind) (st : COState)
    (h1 : runCO COState.init pre = .ok st) (h2 : st.seenReturn = false)
    (h3 : pre ≠ []) :
    checkClauseOrder (pre ++ .returnC :: .matchC :: rest) = .error .MatchAfterReturn ∧
    checkClauseOrder (pre ++ .returnC :: .withC :: rest) = .error .WithAfterReturn ∧
    checkClauseOrder (pre ++ .returnC :: .unwindC :: rest) = .error .UnwindAfterReturn ∧
    checkClauseOrder (pre ++ .returnC :: .deleteC :: rest) = .error .NomParsingError ∧
    checkClauseOrder (pre ++ .returnC :: .setC :: rest) = .error .NomParsingError :=
  ⟨ checkClauseOrder_after_return pre rest st .matchC _ h1 h2 h3 rfl
  , checkClauseOrder_after_return pre rest st .withC _ h1 h2 h3 rfl
  , checkClauseOrder_after_return pre rest st .unwindC _ h1 h2 h3 rfl
  , checkClauseOrder_after_return pre rest st .deleteC _ h1 h2 h3 rfl
  , checkClauseOrder_after_return pre rest st .setC _ h1 h2 h3 rfl ⟩

/-- Witness for the amended C2 at the tests' concrete queries
(`MATCH … RETURN n <clause> …`). -/
theorem clause_after_return_errors_witness :
    checkClauseOrder [.matchC, .returnC, .matchC] = .error .MatchAfterReturn ∧
    checkClauseOrder [.matchC, .returnC, .withC] = .error .WithAfterReturn ∧
    checkClauseOrder [.matchC, .returnC, .unwindC] = .error .UnwindAfterReturn ∧
    checkClauseOrder [.matchC, .returnC, .deleteC] = .error .NomParsingError ∧
    checkClauseOrder [.matchC, .returnC, .setC] = .error .NomParsingError :=
  clause_after_return_errors [.matchC] []
    ⟨true, false, false, false, false⟩ rfl rfl (by simp)

/-- C3 (corrected): contrary to the claim, two consecutive `RETURN` clauses
and a stand-alone `ORDER BY` before any `RETURN`/`WITH` both raise the
generic `NomParsingError` (`test_nom_parsing_error_multiple_return`,
`test_nom_parsing_error_order_by_before_return`), not `ReturnAfterReturn` /
`OrderByBeforeReturn`. -/
theorem consecutive_return_is_nom_error :
    checkClauseOrder [.matchC, .returnC, .returnC] = .error .NomParsingError ∧
    checkClauseOrder [.matchC, .orderByC, .returnC] = .error .NomParsingError ∧
    ParseErrorKind.NomParsingError ≠ ParseErrorKind.ReturnAfterReturn ∧
    ParseErrorKind.NomParsingError ≠ ParseErrorKind.OrderByBeforeReturn :=
  ⟨rfl, rfl, by decide, by decide⟩

/-- C3 (amended): the specific clause-order error is preferred over
`NomParsingError` for a leading `RETURN`, a `WHERE` before any `MATCH`, a
`MATCH`/`WITH`/`UNWIND` after `RETURN` and a `WHERE` after `RETURN`; but two
consecutive `RETURN`s and a stand-alone `ORDER BY` before any `RETURN`/`WITH`
raise the generic `NomParsingError`. -/
theorem specific_errors_preferred :
    checkClauseOrder [.returnC, .matchC] = .error .ReturnBeforeOtherClauses ∧
    checkClauseOrder [.whereC, .matchC, .returnC] = .error .WhereBeforeMatch ∧
    checkClauseOrder [.matchC, .returnC, .matchC] = .error .MatchAfterReturn ∧
    checkClauseOrder [.matchC, .returnC, .withC] = .error .WithAfterReturn ∧
    checkClauseOrder [.matchC, .returnC, .unwindC] = .error .UnwindAfterReturn ∧
    checkClauseOrder [.matchC, .returnC, .whereC] = .error .InvalidClauseOrder ∧
    checkClauseOrder [.matchC, .returnC, .returnC] = .error .NomParsingError ∧
    checkClauseOrder [.matchC, .orderByC, .returnC] = .error .NomParsingError :=
  ⟨rfl, rfl, rfl, rfl, rfl, rfl, rfl, rfl⟩

/-- C8: a query that begins with `RETURN` followed by any other read clause
raises `ReturnBeforeOtherClauses`, a `CypherParsingError` subtype
(`test_return_before_other_clauses`, `test_specific_errors_inheritance`). -/
theorem return_before_other_clauses (c : ClauseKind) (rest : List ClauseKind)
    (h : c.isRead = true) :
    checkSyntax (.ok (.returnC :: c :: rest)) = .error .ReturnBeforeOtherClauses ∧
    isCypherParsingError .ReturnBeforeOtherClauses = true := by
  refine ⟨?_, rfl⟩
  cases c <;> first
    | rfl
    | simp [ClauseKind.isRead] at h

/-- Witness for C8 at the test's query `RETURN n MATCH (n:Person)`. -/
theorem return_before_other_clauses_witness :
    checkSyntax (.ok [.returnC, .matchC]) = .error .ReturnBeforeOtherClauses ∧
    isCypherParsingError .ReturnBeforeOtherClauses = true :=
  return_before_other_clauses .matchC [] rfl

/-- C9: `CREATE` and `MERGE` after a `RETURN` parse successfully
(`test_create_after_return_is_valid`, `test_merge_after_return_is_valid`),
even though the `CreateAfterReturn` and `MergeAfterReturn` kinds exist in
the error taxonomy. -/
theorem create_merge_after_return_accepted :
    checkSyntax (.ok [.matchC, .returnC, .createC]) = .ok true ∧
    checkSyntax (.ok [.matchC, .returnC, .mergeC]) = .ok true ∧
    isCypherParsingError .CreateAfterReturn = true ∧
    isCypherParsingError .MergeAfterReturn = true :=
  ⟨rfl, rfl, rfl, rfl⟩

/-- C10: `has_parser_errors` returns a boolean (never raises) and is `true`
exactly when `checkSyntax` raises; `is_read` and `is_write` raise the same
`ParseError` subtype that `checkSyntax` raises
(`TestErrorConsistency`). -/
theorem parser_error_consistency (p : ParseResult) (e : ParseErrorKind) :
    (has_parser_errors p = true ↔ ∃ e', checkSyntax p = .error e') ∧
    (checkSyntax p = .error e → is_read p = .error e ∧ is_write p = .error e) := by
  constructor
  · unfold has_parser_errors
    cases hcs : checkSyntax p with
    | error e' => simp
    | ok b => simp
  · intro h
    cases p with
    | error f =>
        have hf : f = e := by
          simpa [checkSyntax] using h
        subst hf
        exact ⟨rfl, rfl⟩
    | ok cs =>
        cases hco : checkClauseOrder cs with
        | error f =>
            have hf : f = e := by simpa [checkSyntax, hco] using h
            subst hf
            exact ⟨by simp [is_read, hco], by simp [is_write, hco]⟩
        | ok u =>
            exact absurd h (by simp [checkSyntax, hco])

/-- Witness for C10 at the invalid query `RETURN n MATCH (n:Person)`. -/
theorem parser_error_consistency_witness :
    has_parser_errors (.ok [.returnC, .matchC]) = true ∧
    is_read (.ok [.returnC, .matchC]) = .error .ReturnBeforeOtherClauses ∧
    is_write (.ok [.returnC, .matchC]) = .error .ReturnBeforeOtherClauses :=
  ⟨ rfl
  , ((parser_error_consistency (.ok [.returnC, .matchC]) .ReturnBeforeOtherClauses).2 rfl).1
  , ((parser_error_consistency (.ok [.returnC, .matchC]) .ReturnBeforeOtherClauses).2 rfl).2 ⟩

/-- C1: `validate` never raises for semantic problems — a successful parse
always yields the ordered error list, a parse failure propagates the
`ParseError` subtype; a valid parse with zero semantic problems yields the
empty list, and semantic problems appear in the returned list (demonstrated
at `test_invalid_node_property`'s query). -/
theorem validate_never_raises_semantic :
    (∀ (q : Query) (s : Schema), validate (.ok q) s = .ok (validateQuery s q)) ∧
    (∀ (e : ParseErrorKind) (s : Schema), validate (.error e) s = .error e) ∧
    validate (.ok queryAllValid) testSchema = .ok [] ∧
    validate (.ok queryInvalidProp) testSchema =
      .ok [.invalidPropertyAccess "a" "invalid_prop"] :=
  ⟨fun _ _ => rfl, fun _ _ => rfl, rfl, rfl⟩

/-- C5: across a `WITH` boundary exactly the re-exported variables remain in
scope with their bindings preserved; hence the context-aware query of spec §8
scenario 10 yields exactly one error, on `r.role` (KNOWS has no `role`) and
none on `r2.role`; and referencing a variable absent from the pre-`WITH`
scope yields `UndefinedVariable` (`test_with_clause_invalid_variable`). -/
theorem with_scope_preserves_bindings :
    (∀ (s : Schema) (old : Scope) (vs : List String) (v : String),
      ((processProjections s old (vs.map .bare)).1).lookup v =
        if vs.contains v then old.lookup v else none) ∧
    validateQuery testSchema queryWithContext = [.invalidPropertyAccess "r" "role"] ∧
    (validateQuery testSchema queryWithUndefined).contains
      (.undefinedVariable "b") = true := by
  refine ⟨?_, rfl, rfl⟩
  intro s old vs v
  induction vs with
  | nil => simp [processProjections]
  | cons w ws ih =>
      rcases hps : processProjections s old (ws.map .bare) with ⟨scR, errsR⟩
      have hscR : scR = (processProjections s old (ws.map .bare)).1 := by rw [hps]
      simp only [List.map, processProjections, hps]
      cases hw : old.lookup w with
      | some b =>
          by_cases hvw : w = v
          · subst hvw
            simp [List.lookup, hw]
          · have hbeq : (w == v) = false := beq_false_of_ne hvw
            simp only [List.lookup, hbeq, List.contains_cons]
            rw [hscR, ih]
            have hbeq2 : (v == w) = false := beq_false_of_ne (Ne.symm hvw)
            simp [hbeq2, Ne.symm hvw]
      | none =>
          rw [hscR, ih]
          by_cases hvw : w = v
          · subst hvw
            simp [hw]
          · have hbeq2 : (v == w) = false := beq_false_of_ne (Ne.symm hvw)
            simp [hbeq2, Ne.symm hvw]

/-- C6: a relationship pattern whose declared type is carried by some
permitted triple but whose orientation matches none yields exactly one
`InvalidRelationshipDirection`; concretely spec §8 scenario 6
(`MATCH (a:Person)<-[r:ACTED_IN]-(b:Movie) RETURN a.name`,
`test_cypher_query_invalid_relationship_direction`). -/
theorem wrong_direction_is_reported (s : Schema) (sc : Scope)
    (leftLabels rightLabels : List Label) (rp : RelPattern)
    (hknown : rp.rel_types.all s.knownRelType = true)
    (hne : rp.rel_types ≠ [])
    (htr : s.relationships.filter (fun t => rp.rel_types.contains t.rel_type) ≠ [])
    (hdir : permittedTriples s leftLabels rightLabels rp.rel_types rp.direction = [])
    (hprops : rp.props = []) :
    (checkRelPattern s sc leftLabels rightLabels rp).2 =
      [.invalidRelationshipDirection (rp.var.getD "")] ∧
    validateQuery testSchema queryWrongDirection =
      [.invalidRelationshipDirection "r"] := by
  refine ⟨?_, rfl⟩
  have hEmpty : rp.rel_types.isEmpty = false := by
    cases h : rp.rel_types with
    | nil => exact absurd h hne
    | cons a l => rfl
  have hTypeErrs : rp.rel_types.filter (fun t => !(s.knownRelType t)) = [] := by
    rw [List.filter_eq_nil_iff]
    intro a ha
    have := List.all_eq_true.mp hknown a ha
    simp [this]
  have htr2 : (s.relationships.filter
      (fun t => rp.rel_types.contains t.rel_type)).isEmpty = false :=
    List.isEmpty_eq_false.mpr htr
  unfold checkRelPattern
  simp only [hEmpty, Bool.false_eq_true, if_false, hTypeErrs, hprops, hdir, htr2]
  simp

/-- Witness for C6 at the concrete wrong-direction pattern
`(a:Person)<-[r:ACTED_IN]-(b:Movie)`. -/
theorem wrong_direction_is_reported_witness :
    (checkRelPattern testSchema [] ["Person"] ["Movie"]
        (relP "r" ["ACTED_IN"] .left)).2 =
      [.invalidRelationshipDirection "r"] ∧
    validateQuery testSchema queryWrongDirection =
      [.invalidRelationshipDirection "r"] :=
  wrong_direction_is_reported testSchema [] ["Person"] ["Movie"]
    (relP "r" ["ACTED_IN"] .left) rfl (by decide) (by decide) rfl rfl

/-- C7: a comparison of a property access against a literal whose inferred
type differs from the declared type and is not covered by a documented
widening emits `InvalidPropertyType`; the widenings INTEGER↔FLOAT hold, and
`null`, parameters, `datetime(...)` and `point(...)` wrappers are handled as
documented; concretely spec §8 scenario 5
(`MATCH (a:Person) WHERE a.age = '30' RETURN a.name`,
`test_cypher_query_invalid_property_type`). -/
theorem incompatible_literal_is_reported (s : Schema) (sc : Scope)
    (v k : String) (rhs : Expr) (T S : NeoType)
    (hT : propDeclType s sc v k = some T)
    (hS : typeofLit rhs = some S)
    (hc : compatibleB T S = false) :
    comparisonTypeErrs s sc v k rhs = [.invalidPropertyType v k] ∧
    compatibleB .INTEGER .FLOAT = true ∧
    compatibleB .FLOAT .INTEGER = true ∧
    typeofLit .litNull = none ∧
    (∀ n, typeofLit (.param n) = none) ∧
    (∀ a, typeofLit (.fn "datetime" a) = some .DATE_TIME) ∧
    (∀ a, typeofLit (.fn "point" a) = some .POINT) ∧
    validateQuery testSchema queryWrongLiteralType =
      [.invalidPropertyType "a" "age"] := by
  refine ⟨?_, rfl, rfl, rfl, fun _ => rfl, fun _ => rfl, fun _ => rfl, rfl⟩
  simp [comparisonTypeErrs, hT, hS, hc]

/-! Round-trip lemmas for the schema dictionaries (C4). -/

theorem getStr_inv (v : JValue) (s : String) (h : getStr v = some s) :
    JValue.jstr s = v := by
  cases v <;> simp [getStr] at h
  subst h
  rfl

theorem getInt_inv (v : JValue) (n : Int) (h : getInt v = some n) :
    JValue.jint n = v := by
  cases v <;> simp [getInt] at h
  subst h
  rfl

theorem getNum_inv (v w : JValue) (h : getNum v = some w) : w = v := by
  cases v <;> simp [getNum] at h <;> (subst h; rfl)

theorem mapM_getStr_inv (l : List JValue) (xs : List String)
    (h : l.mapM getStr = some xs) : xs.map JValue.jstr = l := by
  induction l generalizing xs with
  | nil =>
      injection h with h2
      subst h2
      rfl
  | cons a l ih =>
      rw [List.mapM_cons] at h
      cases ha : getStr a with
      | none => rw [ha] at h; simp at h
      | some s =>
          rw [ha] at h
          cases hl : l.mapM getStr with
          | none => rw [hl] at h; simp at h
          | some ys =>
              rw [hl] at h
              simp at h
              subst h
              simp [ih ys hl, getStr_inv a s ha]

theorem getStrList_inv (v : JValue) (xs : List String)
    (h : getStrList v = some xs) : strListJ xs = v := by
  cases v <;> simp [getStrList] at h
  simp [strListJ, mapM_getStr_inv _ _ h]

/-- A successfully read optional field emits exactly its canonicalized
dictionary entry. -/
theorem optField_entry {α : Type} (d : JDict) (k : String) (f : JValue → Option α)
    (g : α → JValue) (r : Option α)
    (hf : ∀ v a, f v = some a → g a = v)
    (h : optField d k f = .ok r) :
    optEntry k (r.map g) = keepOpt d k := by
  unfold optField at h
  split at h
  · rename_i heq
    injection h with h2
    subst h2
    simp [keepOpt, heq, optEntry]
  · rename_i v heq
    by_cases hn : isNullJ v = true
    · rw [if_pos hn] at h
      injection h with h2
      subst h2
      simp [keepOpt, heq, hn, optEntry]
    · rw [if_neg hn] at h
      cases hfv : f v with
      | none => rw [hfv] at h; exact Except.noConfusion h
      | some a =>
          rw [hfv] at h
          injection h with h2
          subst h2
          simp [keepOpt, heq, hn, optEntry, hf v a hfv]

/-- A successfully read nullable field (one `to_dict` always emits) matches
its canonicalization, which materializes unset values as `null`. -/
theorem optField_nullable {α : Type} (d : JDict) (k : String) (f : JValue → Option α)
    (g : α → JValue) (r : Option α)
    (hf : ∀ v a, f v = some a → g a = v)
    (h : optField d k f = .ok r) :
    [(k, (r.map g).getD .jnull)] = keepNullable d k := by
  unfold optField at h
  split at h
  · rename_i heq
    injection h with h2
    subst h2
    simp [keepNullable, heq]
  · rename_i v heq
    by_cases hn : isNullJ v = true
    · rw [if_pos hn] at h
      injection h with h2
      subst h2
      simp [keepNullable, heq, hn]
    · rw [if_neg hn] at h
      cases hfv : f v with
      | none => rw [hfv] at h; exact Except.noConfusion h
      | some a =>
          rw [hfv] at h
          injection h with h2
          subst h2
          simp [keepNullable, heq, hn, hf v a hfv]

/-- A successfully read required field emits exactly its dictionary entry. -/
theorem reqField_entry {α : Type} (d : JDict) (k : String) (f : JValue → Option α)
    (g : α → JValue) (a : α)
    (hf : ∀ v a, f v = some a → g a = v)
    (h : reqField d k f = .ok a) :
    [(k, g a)] = keepReq d k := by
  unfold reqField at h
  split at h
  · exact Except.noConfusion h
  · rename_i v heq
    cases hfv : f v with
    | none => rw [hfv] at h; exact Except.noConfusion h
    | some b =>
        rw [hfv] at h
        injection h with h2
        subst h2
        simp [keepReq, heq, hf v b hfv]

theorem prop_toDict_canon (d : JDict) (p : DbSchemaProperty)
    (h : DbSchemaProperty.from_dict d = .ok p) :
    p.to_dict = canonicalizeProp d := by
  unfold DbSchemaProperty.from_dict at h
  split at h
  all_goals try exact Except.noConfusion h
  rename_i n t heq1 heq2
  split at h
  all_goals try exact Except.noConfusion h
  rename_i t' heq3
  split at h
  all_goals try exact Except.noConfusion h
  rename_i ev mn mx dvc exv heq4 heq5 heq6 heq7 heq8
  injection h with h2
  subst h2
  simp only [DbSchemaProperty.to_dict, canonicalizeProp, keepReq, heq1, heq2, heq3,
    Option.getD_some]
  rw [← optField_entry d "enum_values" getStrList strListJ ev getStrList_inv heq4,
      ← optField_entry d "min_value" getNum id mn (fun v a hv => getNum_inv v a hv) heq5,
      ← optField_entry d "max_value" getNum id mx (fun v a hv => getNum_inv v a hv) heq6,
      ← optField_entry d "distinct_value_count" getInt JValue.jint dvc
          (fun v a hv => getInt_inv v a hv) heq7,
      ← optField_entry d "example_values" getStrList strListJ exv getStrList_inv heq8]
  simp [Option.map_id]

theorem rel_toDict_canon (d : JDict) (r : DbSchemaRelationshipPattern)
    (h : DbSchemaRelationshipPattern.from_dict d = .ok r) :
    r.to_dict = canonicalizeRel d := by
  unfold DbSchemaRelationshipPattern.from_dict at h
  split at h
  all_goals try exact Except.noConfusion h
  rename_i a b t heq1 heq2 heq3
  injection h with h2
  subst h2
  simp [DbSchemaRelationshipPattern.to_dict, canonicalizeRel, keepReq,
    heq1, heq2, heq3]

theorem constraint_toDict_canon (d : JDict) (c : DbSchemaConstraint)
    (h : DbSchemaConstraint.from_dict d = .ok c) :
    c.to_dict = canonicalizeConstraint d := by
  unfold DbSchemaConstraint.from_dict at h
  split at h
  all_goals try exact Except.noConfusion h
  rename_i i n ct et lt ps oi pt heq1 heq2 heq3 heq4 heq5 heq6 heq7 heq8
  injection h with h2
  subst h2
  unfold DbSchemaConstraint.to_dict canonicalizeConstraint
  rw [← reqField_entry d "id" getInt JValue.jint i (fun v a hv => getInt_inv v a hv) heq1,
      ← reqField_entry d "name" getStr JValue.jstr n (fun v a hv => getStr_inv v a hv) heq2,
      ← reqField_entry d "constraint_type" getStr JValue.jstr ct
          (fun v a hv => getStr_inv v a hv) heq3,
      ← reqField_entry d "entity_type" getStr JValue.jstr et
          (fun v a hv => getStr_inv v a hv) heq4,
      ← reqField_entry d "labels_or_types" getStrList strListJ lt getStrList_inv heq5,
      ← reqField_entry d "properties" getStrList strListJ ps getStrList_inv heq6,
      ← optField_nullable d "owned_index" getStr JValue.jstr oi
          (fun v a hv => getStr_inv v a hv) heq7,
      ← optField_nullable d "property_type" getStr JValue.jstr pt
          (fun v a hv => getStr_inv v a hv) heq8]
  rfl

theorem index_toDict_canon (d : JDict) (i : DbSchemaIndex)
    (h : DbSchemaIndex.from_dict d = .ok i) :
    i.to_dict = canonicalizeIndex d := by
  unfold DbSchemaIndex.from_dict at h
  split at h
  all_goals try exact Except.noConfusion h
  rename_i l ps sz it vs dv heq1 heq2 heq3 heq4 heq5 heq6
  injection h with h2
  subst h2
  unfold DbSchemaIndex.to_dict canonicalizeIndex
  rw [← reqField_entry d "label" getStr JValue.jstr l (fun v a hv => getStr_inv v a hv) heq1,
      ← reqField_entry d "properties" getStrList strListJ ps getStrList_inv heq2,
      ← reqField_entry d "size" getInt JValue.jint sz (fun v a hv => getInt_inv v a hv) heq3,
      ← reqField_entry d "index_type" getStr JValue.jstr it
          (fun v a hv => getStr_inv v a hv) heq4,
      ← reqField_entry d "values_selectivity" getNum id vs
          (fun v a hv => getNum_inv v a hv) heq5,
      ← reqField_entry d "distinct_values" getInt JValue.jint dv
          (fun v a hv => getInt_inv v a hv) heq6]
  rfl

theorem constraintsFromJ_inv (l : List JValue) (cs : List DbSchemaConstraint)
    (h : constraintsFromJ l = .ok cs) :
    cs.map (fun c => JValue.jobj c.to_dict) = l.map canonConstraintJ := by
  induction l generalizing cs with
  | nil =>
      simp [constraintsFromJ] at h
      subst h
      rfl
  | cons a l ih =>
      cases a
      case jobj f =>
        unfold constraintsFromJ at h
        cases hc : DbSchemaConstraint.from_dict f with
        | error e => rw [hc] at h; exact Except.noConfusion h
        | ok c =>
            rw [hc] at h
            cases hrest : constraintsFromJ l with
            | error e => rw [hrest] at h; exact Except.noConfusion h
            | ok cs' =>
                rw [hrest] at h
                injection h with h2
                subst h2
                simp [canonConstraintJ, constraint_toDict_canon f c hc, ih cs' hrest]
      all_goals exact absurd h (by simp [constraintsFromJ])

theorem indexesFromJ_inv (l : List JValue) (is : List DbSchemaIndex)
    (h : indexesFromJ l = .ok is) :
    is.map (fun i => JValue.jobj i.to_dict) = l.map canonIndexJ := by
  induction l generalizing is with
  | nil =>
      simp [indexesFromJ] at h
      subst h
      rfl
  | cons a l ih =>
      cases a
      case jobj f =>
        unfold indexesFromJ at h
        cases hc : DbSchemaIndex.from_dict f with
        | error e => rw [hc] at h; exact Except.noConfusion h
        | ok i =>
            rw [hc] at h
            cases hrest : indexesFromJ l with
            | error e => rw [hrest] at h; exact Except.noConfusion h
            | ok is' =>
                rw [hrest] at h
                injection h with h2
                subst h2
                simp [canonIndexJ, index_toDict_canon f i hc, ih is' hrest]
      all_goals exact absurd h (by simp [indexesFromJ])

theorem relsFromJ_inv (l : List JValue) (rs : List DbSchemaRelationshipPattern)
    (h : relsFromJ l = .ok rs) :
    rs.map (fun r => JValue.jobj r.to_dict) = l.map canonRelJ := by
  induction l generalizing rs with
  | nil =>
      simp [relsFromJ] at h
      subst h
      rfl
  | cons a l ih =>
      cases a
      case jobj f =>
        unfold relsFromJ at h
        cases hc : DbSchemaRelationshipPattern.from_dict f with
        | error e => rw [hc] at h; exact Except.noConfusion h
        | ok r =>
            rw [hc] at h
            cases hrest : relsFromJ l with
            | error e => rw [hrest] at h; exact Except.noConfusion h
            | ok rs' =>
                rw [hrest] at h
                injection h with h2
                subst h2
                simp [canonRelJ, rel_toDict_canon f r hc, ih rs' hrest]
      all_goals exact absurd h (by simp [relsFromJ])

theorem propsFromJ_inv (l : List JValue) (ps : List DbSchemaProperty)
    (h : propsFromJ l = .ok ps) :
    ps.map (fun p => JValue.jobj p.to_dict) = l.map canonPropJ := by
  induction l generalizing ps with
  | nil =>
      simp [propsFromJ] at h
      subst h
      rfl
  | cons a l ih =>
      cases a
      case jobj f =>
        unfold propsFromJ at h
        cases hc : DbSchemaProperty.from_dict f with
        | error e => rw [hc] at h; exact Except.noConfusion h
        | ok p =>
            rw [hc] at h
            cases hrest : propsFromJ l with
            | error e => rw [hrest] at h; exact Except.noConfusion h
            | ok ps' =>
                rw [hrest] at h
                injection h with h2
                subst h2
                simp [canonPropJ, prop_toDict_canon f p hc, ih ps' hrest]
      all_goals exact absurd h (by simp [propsFromJ])

theorem propMapFromJ_inv (m : JDict) (pm : List (String × List DbSchemaProperty))
    (h : propMapFromJ m = .ok pm) :
    propMapToJ pm = canonPropMapJ m := by
  induction m generalizing pm with
  | nil =>
      simp [propMapFromJ] at h
      subst h
      rfl
  | cons e m ih =>
      obtain ⟨l, v⟩ := e
      cases v
      case jlist pj =>
        unfold propMapFromJ at h
        cases hp : propsFromJ pj with
        | error e => rw [hp] at h; exact Except.noConfusion h
        | ok ps =>
            rw [hp] at h
            cases hm : propMapFromJ m with
            | error e => rw [hm] at h; exact Except.noConfusion h
            | ok pm' =>
                rw [hm] at h
                injection h with h2
                subst h2
                simp [propMapToJ, canonPropMapJ, propsFromJ_inv pj ps hp]
                have := ih pm' hm
                simpa [propMapToJ, canonPropMapJ] using this
      all_goals exact absurd h (by simp [propMapFromJ])

theorem metadata_toDict_canon (d : JDict) (m : DbSchemaMetadata)
    (h : DbSchemaMetadata.from_dict d = .ok m) :
    m.to_dict = canonicalizeMetadata d := by
  unfold DbSchemaMetadata.from_dict at h
  split at h
  all_goals try exact Except.noConfusion h
  rename_i cj ij heq1 heq2
  split at h
  all_goals try exact Except.noConfusion h
  rename_i cs is heq3 heq4
  injection h with h2
  subst h2
  simp [DbSchemaMetadata.to_dict, canonicalizeMetadata, heq1, heq2,
    constraintsFromJ_inv cj cs heq3, indexesFromJ_inv ij is heq4]

theorem schema_toDict_canon (d : JDict) (s : DbSchema)
    (h : DbSchema.from_dict d = .ok s) :
    s.to_dict = canonicalizeSchema d := by
  unfold DbSchema.from_dict at h
  split at h
  all_goals try exact Except.noConfusion h
  rename_i nj rj lj mj heq1 heq2 heq3 heq4
  split at h
  all_goals try exact Except.noConfusion h
  rename_i np rp rel md heq5 heq6 heq7 heq8
  injection h with h2
  subst h2
  simp [DbSchema.to_dict, canonicalizeSchema, heq1, heq2, heq3, heq4,
    propMapFromJ_inv nj np heq5, propMapFromJ_inv rj rp heq6,
    relsFromJ_inv lj rel heq7, metadata_toDict_canon mj md heq8]

/-- C4: schema round-trip — for every dictionary accepted by the
constructor, `from_dict(d).to_dict()` equals the canonicalized `d`
(type-name normalization, insertion order preserved, unset optional property
fields omitted), and likewise for `DbSchemaProperty`,
`DbSchemaRelationshipPattern`, `DbSchemaConstraint` and `DbSchemaIndex`
(`test_DbSchema_to_dict_valid`, `test_DbSchemaProperty_to_dict_valid`). -/
theorem from_dict_to_dict_roundtrip :
    (∀ d p, DbSchemaProperty.from_dict d = .ok p → p.to_dict = canonicalizeProp d) ∧
    (∀ d r, DbSchemaRelationshipPattern.from_dict d = .ok r →
      r.to_dict = canonicalizeRel d) ∧
    (∀ d c, DbSchemaConstraint.from_dict d = .ok c →
      c.to_dict = canonicalizeConstraint d) ∧
    (∀ d i, DbSchemaIndex.from_dict d = .ok i → i.to_dict = canonicalizeIndex d) ∧
    (∀ d s, DbSchema.from_dict d = .ok s → s.to_dict = canonicalizeSchema d) :=
  ⟨prop_toDict_canon, rel_toDict_canon, constraint_toDict_canon,
   index_toDict_canon, schema_toDict_canon⟩

/-- Witness for C4 at the concrete dictionaries of the schema tests; the
test dictionaries are already canonical, so the round-trip reproduces them
exactly, as `test_DbSchema_to_dict_valid` asserts. -/
theorem from_dict_to_dict_roundtrip_witness :
    DbSchemaProperty.from_dict examplePropDict = .ok exampleProp ∧
    exampleProp.to_dict = canonicalizeProp examplePropDict ∧
    DbSchemaRelationshipPattern.from_dict exampleRelDict = .ok exampleRel ∧
    exampleRel.to_dict = canonicalizeRel exampleRelDict ∧
    DbSchemaConstraint.from_dict exampleConstraintDict = .ok exampleConstraint ∧
    exampleConstraint.to_dict = canonicalizeConstraint exampleConstraintDict ∧
    DbSchemaIndex.from_dict exampleIndexDict = .ok exampleIndex ∧
    exampleIndex.to_dict = canonicalizeIndex exampleIndexDict ∧
    DbSchema.from_dict exampleSchemaDict = .ok exampleDbSchema ∧
    exampleDbSchema.to_dict = canonicalizeSchema exampleSchemaDict :=
  ⟨ rfl, from_dict_to_dict_roundtrip.1 examplePropDict exampleProp rfl
  , rfl, from_dict_to_dict_roundtrip.2.1 exampleRelDict exampleRel rfl
  , rfl, from_dict_to_dict_roundtrip.2.2.1 exampleConstraintDict exampleConstraint rfl
  , rfl, from_dict_to_dict_roundtrip.2.2.2.1 exampleIndexDict exampleIndex rfl
  , rfl, from_dict_to_dict_roundtrip.2.2.2.2 exampleSchemaDict exampleDbSchema rfl ⟩

/-- Witness for C7 at the concrete comparison `a.age = '30'` with `age`
declared INTEGER. -/
theorem incompatible_literal_is_reported_witness :
    comparisonTypeErrs testSchema
        [("a", ⟨.node, ["Person"], []⟩)] "a" "age" (.litString "30") =
      [.invalidPropertyType "a" "age"] ∧
    validateQuery testSchema queryWrongLiteralType =
      [.invalidPropertyType "a" "age"] :=
  ⟨ (incompatible_literal_is_reported testSchema
      [("a", ⟨.node, ["Person"], []⟩)] "a" "age" (.litString "30")
      .INTEGER .STRING rfl rfl rfl).1
  , (incompatible_literal_is_reported testSchema
      [("a", ⟨.node, ["Person"], []⟩)] "a" "age" (.litString "30")
      .INTEGER .STRING rfl rfl rfl).2.2.2.2.2.2.2 ⟩

end CypherGuard
